import Mathlib

/-!
Shallow embedding of the universal-developer command parsing and
prompt-transformation pipeline (src/adapters/base.ts, src/adapters/claude.ts,
src/adapters/openai.ts, src/adapters/qwen.ts and src/index.ts).

Strings are modelled as `List Char`; JavaScript numbers as `ℚ`; the single
outbound HTTP call performed by each adapter is modelled by an explicit
`HttpOutcome` oracle argument, so that the rest of the pipeline stays pure.
-/

/-- Characters matched by the regex class `[a-zA-Z0-9_]` used both by the
command regex and by the parameter regex in `base.ts`. -/
def isWordChar (c : Char) : Bool :=
  c.isAlphanum || c == '_'

/-- Characters matched by the JavaScript regex class `\s` (the whitespace set
used by `\s+` in the command regex and by `[^\s]+` in the parameter regex). -/
def isJsSpace (c : Char) : Bool :=
  c == ' ' || c == '\t' || c == '\n' || c == '\r' || c == '\x0B' || c == '\x0C' ||
  c == '\u00A0' || c == '\u1680' || c == '\u2000' || c == '\u2001' || c == '\u2002' ||
  c == '\u2003' || c == '\u2004' || c == '\u2005' || c == '\u2006' || c == '\u2007' ||
  c == '\u2008' || c == '\u2009' || c == '\u200A' || c == '\u2028' || c == '\u2029' ||
  c == '\u202F' || c == '\u205F' || c == '\u3000' || c == '\uFEFF'

/-- JavaScript `String.prototype.trim`: strips whitespace from both ends. -/
def jsTrim (l : List Char) : List Char :=
  ((l.dropWhile isJsSpace).reverse.dropWhile isJsSpace).reverse

/-- JavaScript `s.replace(pat, '')` with a plain-string pattern: erases the
first occurrence of `pat`, or returns `s` unchanged when `pat` does not
occur in `s`. -/
def replaceFirstErase (s pat : List Char) : List Char :=
  match s with
  | [] => []
  | c :: rest =>
    if pat.isPrefixOf (c :: rest) then (c :: rest).drop pat.length
    else c :: replaceFirstErase rest pat

/-- JavaScript `a || b` where `a` is a string-valued map lookup (the empty
string is falsy). -/
def jsOrStr (o : Option (List Char)) (d : List Char) : List Char :=
  match o with
  | some s => if s = [] then d else s
  | none => d

/-- JavaScript `a || b` for numbers (`0` is falsy). -/
def jsOrQ (o : Option ℚ) (d : ℚ) : ℚ :=
  match o with
  | some x => if x = 0 then d else x
  | none => d

/-- A value in a parsed parameter mapping: a string captured from a
`--name=value` token, a number (used by the declared defaults `3` and `2`),
or a boolean (a bare `--name` token yields `true`). -/
inductive ParamValue where
  | str (s : List Char)
  | num (n : Nat)
  | boolean (b : Bool)
deriving DecidableEq, Repr

/-- JavaScript truthiness for a `ParamValue`. -/
def isFalsyParam : ParamValue → Bool
  | ParamValue.str s => s.isEmpty
  | ParamValue.num n => n == 0
  | ParamValue.boolean b => !b

/-- JavaScript `a || b` where `a` is a parameter-mapping lookup. -/
def jsOrParam (o : Option ParamValue) (d : ParamValue) : ParamValue :=
  match o with
  | some v => if isFalsyParam v then d else v
  | none => d

/-- JavaScript template-literal interpolation `${v}` of a parameter value. -/
def paramValueText : ParamValue → List Char
  | ParamValue.str s => s
  | ParamValue.num n => (toString n).toList
  | ParamValue.boolean b => (if b then "true" else "false").toList

/-- `Map.set` / JavaScript object assignment: replaces the binding of `k` in
place when present, otherwise appends it. -/
def mapSet (k : List Char) (v : α) : List (List Char × α) → List (List Char × α)
  | [] => [(k, v)]
  | (k', v') :: rest => if k' = k then (k, v) :: rest else (k', v') :: mapSet k v rest

/-- `Map.get` / JavaScript object property lookup. -/
def lookupMap (m : List (List Char × α)) (key : List Char) : Option α :=
  match m with
  | [] => none
  | (k', v') :: rest => if k' = key then some v' else lookupMap rest key

/-- The value of the LAST binding of `key` in `ms`, if any: the value a key
ends up with when the bindings are written into a map left to right. -/
def lastLookup (ms : List (List Char × α)) (key : List Char) : Option α :=
  match ms with
  | [] => none
  | (k', v') :: rest =>
    match lastLookup rest key with
    | some r => some r
    | none => if k' = key then some v' else none

/-- `Option` fallback: the first operand when present, otherwise the second. -/
def orO (a b : Option α) : Option α :=
  match a with
  | some x => some x
  | none => b

/-- The leading-command regex `/^\/([a-zA-Z0-9_]+)(?:\s+([^\n]*))?/` of
`ModelAdapter.parseCommand`.  Returns the captured command word, the optional
captured rest-of-line group, and the full match text. -/
def matchCommandRegex (p : List Char) : Option (List Char × Option (List Char) × List Char) :=
  match p with
  | '/' :: cs =>
    let word := cs.takeWhile isWordChar
    let afterWord := cs.dropWhile isWordChar
    if word = [] then none
    else
      let sp := afterWord.takeWhile isJsSpace
      let afterSp := afterWord.dropWhile isJsSpace
      if sp = [] then some (word, none, '/' :: word)
      else
        let restLine := afterSp.takeWhile (fun c => c != '\n')
        some (word, some restLine, '/' :: (word ++ sp ++ restLine))
  | _ => none

/-- The regex `/^\/([a-zA-Z0-9_]+)/` used by `UniversalLLM.generate` to
extract a leading command token for usage counting and telemetry. -/
def matchUsageToken (prompt : List Char) : Option (List Char) :=
  match prompt with
  | '/' :: cs =>
    let w := cs.takeWhile isWordChar
    if w = [] then none else some w
  | _ => none

/-- One attempt of the parameter regex `--([a-zA-Z0-9_]+)(?:=([^\s]+))?` at
the head of `l`: on success returns the captured binding (a bare `--name`
yields `true`) together with the remainder of the input after the match. -/
def tryMatchParam (l : List Char) : Option ((List Char × ParamValue) × List Char) :=
  match l with
  | '-' :: '-' :: rest =>
    let name := rest.takeWhile isWordChar
    let afterName := rest.dropWhile isWordChar
    if name = [] then none
    else
      match afterName with
      | '=' :: v =>
        let value := v.takeWhile (fun c => !(isJsSpace c))
        let afterValue := v.dropWhile (fun c => !(isJsSpace c))
        if value = [] then some ((name, ParamValue.boolean true), afterName)
        else some ((name, ParamValue.str value), afterValue)
      | _ => some ((name, ParamValue.boolean true), afterName)
  | _ => none

/-- The repeated `exec` loop over the parameter string: scan left to right,
emitting each regex match and resuming after it.  `fuel` bounds the number of
scan steps; every step either consumes at least one character or emits a
match that consumes at least three, so `l.length` steps always suffice and
the bound is never hit when the scan starts with `fuel = l.length`. -/
def scanGo : Nat → List Char → List (List Char × ParamValue)
  | 0, _ => []
  | _ + 1, [] => []
  | n + 1, c :: rest =>
    match tryMatchParam (c :: rest) with
    | some (kv, remainder) => kv :: scanGo n remainder
    | none => scanGo n rest

/-- All matches of the global parameter regex in `paramString`, in order. -/
def scanParams (l : List Char) : List (List Char × ParamValue) :=
  scanGo l.length l

/-- A parameter declaration of a symbolic command (`SymbolicCommand.parameters`
entries in `base.ts`). -/
structure ParamDecl where
  name : List Char
  description : List Char
  required : Bool
  default : Option ParamValue
deriving DecidableEq, Repr

/-- Which of the six adapter transform methods a built-in command binds
(`transform: this.transformThink.bind(this)` and so on). -/
inductive TransformTag where
  | think | fast | loop | reflect | collapse | fork
deriving DecidableEq, Repr

/-- A registered symbolic command (`SymbolicCommand` in `base.ts`). -/
structure Command where
  name : List Char
  description : List Char
  aliases : List (List Char)
  params : List ParamDecl
  transform : TransformTag
deriving DecidableEq, Repr

/-- The per-adapter registry state: the command map and the alias map. -/
structure AdapterState where
  commands : List (List Char × Command)
  aliasMap : List (List Char × List Char)
deriving DecidableEq, Repr

/-- `ModelAdapter.registerCommand`: insert/replace under the command's name
and record each alias. -/
def registerCommand (st : AdapterState) (c : Command) : AdapterState :=
  { commands := mapSet c.name c st.commands
    aliasMap := c.aliases.foldl (fun m a => mapSet a c.name m) st.aliasMap }

/-- The built-in `think` command. -/
def thinkCmd : Command :=
  { name := "think".toList
    description := "Activate extended reasoning pathways".toList
    aliases := []
    params := []
    transform := TransformTag.think }

/-- The built-in `fast` command. -/
def fastCmd : Command :=
  { name := "fast".toList
    description := "Optimize for low-latency responses".toList
    aliases := []
    params := []
    transform := TransformTag.fast }

/-- The built-in `loop` command with its `iterations` parameter (default 3). -/
def loopCmd : Command :=
  { name := "loop".toList
    description := "Enable iterative refinement cycles".toList
    aliases := []
    params := [{ name := "iterations".toList
                 description := "Number of refinement iterations".toList
                 required := false
                 default := some (ParamValue.num 3) }]
    transform := TransformTag.loop }

/-- The built-in `reflect` command. -/
def reflectCmd : Command :=
  { name := "reflect".toList
    description := "Trigger meta-analysis of outputs".toList
    aliases := []
    params := []
    transform := TransformTag.reflect }

/-- The built-in `collapse` command. -/
def collapseCmd : Command :=
  { name := "collapse".toList
    description := "Return to default behavior".toList
    aliases := []
    params := []
    transform := TransformTag.collapse }

/-- The built-in `fork` command with its `count` parameter (default 2). -/
def forkCmd : Command :=
  { name := "fork".toList
    description := "Generate multiple alternative responses".toList
    aliases := []
    params := [{ name := "count".toList
                 description := "Number of alternatives to generate".toList
                 required := false
                 default := some (ParamValue.num 2) }]
    transform := TransformTag.fork }

/-- The six built-in commands, in the order `registerCoreCommands` registers
them. -/
def coreCommands : List Command :=
  [thinkCmd, fastCmd, loopCmd, reflectCmd, collapseCmd, forkCmd]

/-- `ModelAdapter.registerCoreCommands`, run by the adapter constructor. -/
def registerCoreCommands (st : AdapterState) : AdapterState :=
  coreCommands.foldl registerCommand st

/-- The registry state of a freshly constructed adapter. -/
def initAdapterState : AdapterState :=
  registerCoreCommands { commands := [], aliasMap := [] }

/-- The declared defaults of a command, written into a fresh mapping in
declaration order (the `cmd.parameters.forEach` loop of `parseParameters`). -/
def paramDefaults (cmd : Command) : List (List Char × ParamValue) :=
  cmd.params.foldl
    (fun m p =>
      match p.default with
      | some d => mapSet p.name d m
      | none => m) []

/-- `ModelAdapter.parseParameters`: an empty mapping when the command is
unknown or declares no parameters; otherwise the declared defaults overwritten
by every `--name[=value]` match found in the parameter string, left to
right. -/
def parseParameters (st : AdapterState) (command : List Char) (paramString : List Char) :
    List (List Char × ParamValue) :=
  match lookupMap st.commands command with
  | none => []
  | some cmd =>
    if cmd.params.isEmpty then []
    else (scanParams paramString).foldl (fun m kv => mapSet kv.1 kv.2 m) (paramDefaults cmd)

/-- The result of `ModelAdapter.parseCommand`. -/
structure ParsedInvocation where
  command : Option (List Char)
  cleanPrompt : List Char
  parameters : List (List Char × ParamValue)
deriving DecidableEq, Repr

/-- `ModelAdapter.parseCommand`: match the leading-command regex, resolve the
captured word through the alias map, bail out (returning the input unchanged)
when nothing matches or the name is not registered, and otherwise parse the
parameters from the captured rest group and erase the full match from the
prompt. -/
def parseCommand (st : AdapterState) (prompt : List Char) : ParsedInvocation :=
  match matchCommandRegex prompt with
  | none => { command := none, cleanPrompt := prompt, parameters := [] }
  | some (word, restOpt, fullMatch) =>
    let commandName := jsOrStr (lookupMap st.aliasMap word) word
    if (lookupMap st.commands commandName).isSome then
      { command := some commandName
        cleanPrompt := jsTrim (replaceFirstErase prompt fullMatch)
        parameters := parseParameters st commandName (restOpt.getD []) }
    else { command := none, cleanPrompt := prompt, parameters := [] }

/-- The options record handed to a transform by `ModelAdapter.generate`
(`{ systemPrompt, parameters, options }`); only the system prompt and the
parsed parameter mapping are read by the transforms. -/
structure TransformOptions where
  systemPrompt : List Char
  parameters : List (List Char × ParamValue)
deriving DecidableEq, Repr

/-- `TransformedPrompt` from `base.ts`: the normalized request a transform
produces.  The `modelParameters` record is flattened into the optional fields
actually written by the adapters (`temperature`, `max_tokens`,
`enable_thinking`, `presence_penalty`, `frequency_penalty`); a `none` field is
an absent key. -/
structure TransformedPrompt where
  systemPrompt : List Char
  userPrompt : List Char
  temperatureP : Option ℚ
  maxTokensP : Option ℚ
  enableThinkingP : Option Bool
  presencePenaltyP : Option ℚ
  frequencyPenaltyP : Option ℚ
deriving DecidableEq, Repr

/-- The per-adapter configuration fixed by the adapter constructor:
`baseURL`, `model`, `maxTokens` and `temperature`, each `options.x || default`. -/
structure ProviderSettings where
  baseURL : List Char
  model : List Char
  maxTokens : ℚ
  temperature : ℚ
deriving DecidableEq, Repr

/-- `ClaudeAdapter.transformThink`. -/
def claudeTransformThink (s : ProviderSettings) (prompt : List Char) (o : TransformOptions) :
    TransformedPrompt :=
  { systemPrompt := o.systemPrompt ++ ("\nFor this response, I\x27d like you to engage your deepest analytical capabilities. Please think step by step through this problem, considering multiple perspectives and potential approaches. Take your time to develop a comprehensive, nuanced understanding before providing your final answer.").toList
    userPrompt := prompt
    temperatureP := some (max (1/10) (s.temperature - 2/10))
    maxTokensP := none
    enableThinkingP := some true
    presencePenaltyP := none
    frequencyPenaltyP := none }

/-- `ClaudeAdapter.transformFast`. -/
def claudeTransformFast (s : ProviderSettings) (prompt : List Char) (o : TransformOptions) :
    TransformedPrompt :=
  { systemPrompt := o.systemPrompt ++ ("\nPlease provide a brief, direct response to this question. Focus on the most important information and keep your answer concise and to the point.").toList
    userPrompt := prompt
    temperatureP := some (min 1 (s.temperature + 1/10))
    maxTokensP := some (min s.maxTokens 1024)
    enableThinkingP := some false
    presencePenaltyP := none
    frequencyPenaltyP := none }

/-- `ClaudeAdapter.transformLoop`. -/
def claudeTransformLoop (s : ProviderSettings) (prompt : List Char) (o : TransformOptions) :
    TransformedPrompt :=
  let iterations := jsOrParam (lookupMap o.parameters "iterations".toList) (ParamValue.num 3)
  { systemPrompt := o.systemPrompt ++ ("\nPlease approach this task using an iterative process. Follow these steps:\n\n1. Develop an initial response to the prompt.\n2. Critically review your response, identifying areas for improvement.\n3. Create an improved version based on your critique.\n4. Repeat steps 2-3 for a total of ").toList ++ paramValueText iterations ++ (" iterations.\n5. Present your final response, which should reflect the accumulated improvements.\n\nShow all iterations in your response, clearly labeled.").toList
    userPrompt := prompt
    temperatureP := some s.temperature
    maxTokensP := some s.maxTokens
    enableThinkingP := none
    presencePenaltyP := none
    frequencyPenaltyP := none }

/-- `ClaudeAdapter.transformReflect`. -/
def claudeTransformReflect (s : ProviderSettings) (prompt : List Char) (o : TransformOptions) :
    TransformedPrompt :=
  { systemPrompt := o.systemPrompt ++ ("\nFor this response, I\x27d like you to engage in two distinct phases:\n\n1. First, respond to the user\x27s query directly.\n2. Then, reflect on your own response by considering:\n   - What assumptions did you make in your answer?\n   - What perspectives or viewpoints might be underrepresented?\n   - What limitations exist in your approach or knowledge?\n   - How might your response be improved or expanded?\n\nClearly separate these two phases in your response.").toList
    userPrompt := prompt
    temperatureP := some (max (1/10) (s.temperature - 1/10))
    maxTokensP := none
    enableThinkingP := some true
    presencePenaltyP := none
    frequencyPenaltyP := none }

/-- `ClaudeAdapter.transformCollapse`. -/
def claudeTransformCollapse (s : ProviderSettings) (prompt : List Char) (o : TransformOptions) :
    TransformedPrompt :=
  { systemPrompt := o.systemPrompt
    userPrompt := prompt
    temperatureP := some s.temperature
    maxTokensP := some s.maxTokens
    enableThinkingP := some false
    presencePenaltyP := none
    frequencyPenaltyP := none }

/-- `ClaudeAdapter.transformFork`. -/
def claudeTransformFork (s : ProviderSettings) (prompt : List Char) (o : TransformOptions) :
    TransformedPrompt :=
  let count := jsOrParam (lookupMap o.parameters "count".toList) (ParamValue.num 2)
  { systemPrompt := o.systemPrompt ++ ("\nPlease provide ").toList ++ paramValueText count ++ (" distinct alternative responses to this prompt. These alternatives should represent fundamentally different approaches or perspectives, not minor variations. Label each alternative clearly.").toList
    userPrompt := prompt
    temperatureP := some (min 1 (s.temperature + 2/10))
    maxTokensP := some s.maxTokens
    enableThinkingP := none
    presencePenaltyP := none
    frequencyPenaltyP := none }

/-- `OpenAIAdapter.transformThink`. -/
def openaiTransformThink (s : ProviderSettings) (prompt : List Char) (o : TransformOptions) :
    TransformedPrompt :=
  { systemPrompt := o.systemPrompt ++ ("\nWhen responding to this query, please use the following approach:\n1. Take a deep breath and think step-by-step about the problem\n2. Break down complex aspects into simpler components\n3. Consider multiple perspectives and approaches\n4. Identify potential misconceptions or errors in reasoning\n5. Synthesize your analysis into a comprehensive response\n6. Structure your thinking process visibly with clear sections:\n   a. Initial Analysis\n   b. Detailed Exploration\n   c. Synthesis and Conclusion").toList
    userPrompt := prompt
    temperatureP := some (max (1/10) (s.temperature - 2/10))
    maxTokensP := some s.maxTokens
    enableThinkingP := none
    presencePenaltyP := none
    frequencyPenaltyP := none }

/-- `OpenAIAdapter.transformFast`. -/
def openaiTransformFast (s : ProviderSettings) (prompt : List Char) (o : TransformOptions) :
    TransformedPrompt :=
  { systemPrompt := o.systemPrompt ++ ("\nPlease provide a concise, direct response. Focus only on the most essential information needed to answer the query. Keep explanations minimal and prioritize brevity over comprehensiveness.").toList
    userPrompt := prompt
    temperatureP := some (min 1 (s.temperature + 1/10))
    maxTokensP := some (min s.maxTokens 1024)
    enableThinkingP := none
    presencePenaltyP := some 1
    frequencyPenaltyP := some 1 }

/-- `OpenAIAdapter.transformLoop`. -/
def openaiTransformLoop (s : ProviderSettings) (prompt : List Char) (o : TransformOptions) :
    TransformedPrompt :=
  let iterations := jsOrParam (lookupMap o.parameters "iterations".toList) (ParamValue.num 3)
  { systemPrompt := o.systemPrompt ++ ("\nPlease approach this task using an iterative refinement process with ").toList ++ paramValueText iterations ++ (" cycles:\n\n1. Initial Version: Create your first response to the query\n2. Critical Review: Analyze the strengths and weaknesses of your response\n3. Improved Version: Create an enhanced version addressing the identified issues\n4. Repeat steps 2-3 for each iteration\n5. Final Version: Provide your most refined response\n\nClearly label each iteration (e.g., \"Iteration 1\", \"Critique 1\", etc.) in your response.").toList
    userPrompt := prompt
    temperatureP := some s.temperature
    maxTokensP := some s.maxTokens
    enableThinkingP := none
    presencePenaltyP := none
    frequencyPenaltyP := none }

/-- `OpenAIAdapter.transformReflect`. -/
def openaiTransformReflect (s : ProviderSettings) (prompt : List Char) (o : TransformOptions) :
    TransformedPrompt :=
  { systemPrompt := o.systemPrompt ++ ("\nFor this query, please structure your response in two distinct parts:\n\nPART 1: DIRECT RESPONSE\nProvide your primary answer to the user\x27s query.\n\nPART 2: META-REFLECTION\nThen, engage in critical reflection on your own response by addressing:\n- What assumptions did you make in your answer?\n- What alternative perspectives might be valid?\n- What are the limitations of your response?\n- How might your response be improved?\n- What cognitive biases might have influenced your thinking?\n\nMake sure both parts are clearly labeled and distinguishable.").toList
    userPrompt := prompt
    temperatureP := some (max (1/10) (s.temperature - 1/10))
    maxTokensP := some s.maxTokens
    enableThinkingP := none
    presencePenaltyP := none
    frequencyPenaltyP := none }

/-- `OpenAIAdapter.transformCollapse`. -/
def openaiTransformCollapse (s : ProviderSettings) (prompt : List Char) (o : TransformOptions) :
    TransformedPrompt :=
  { systemPrompt := o.systemPrompt
    userPrompt := prompt
    temperatureP := some s.temperature
    maxTokensP := some s.maxTokens
    enableThinkingP := none
    presencePenaltyP := none
    frequencyPenaltyP := none }

/-- `OpenAIAdapter.transformFork`. -/
def openaiTransformFork (s : ProviderSettings) (prompt : List Char) (o : TransformOptions) :
    TransformedPrompt :=
  let count := jsOrParam (lookupMap o.parameters "count".toList) (ParamValue.num 2)
  { systemPrompt := o.systemPrompt ++ ("\nPlease provide ").toList ++ paramValueText count ++ (" substantively different responses to this prompt. Each alternative should represent a different approach, perspective, or framework. Clearly label each alternative (e.g., \"Alternative 1\", \"Alternative 2\", etc.).").toList
    userPrompt := prompt
    temperatureP := some (min 1 (s.temperature + 2/10))
    maxTokensP := some s.maxTokens
    enableThinkingP := none
    presencePenaltyP := none
    frequencyPenaltyP := none }

/-- `QwenAdapter.transformThink` (uses Qwen3's native thinking marker). -/
def qwenTransformThink (s : ProviderSettings) (prompt : List Char) (o : TransformOptions) :
    TransformedPrompt :=
  { systemPrompt := o.systemPrompt
    userPrompt := if ("/think".toList).isSuffixOf (jsTrim prompt) then prompt
                  else prompt ++ (" /think").toList
    temperatureP := some (max (1/10) (s.temperature - 2/10))
    maxTokensP := none
    enableThinkingP := some true
    presencePenaltyP := none
    frequencyPenaltyP := none }

/-- `QwenAdapter.transformFast`. -/
def qwenTransformFast (s : ProviderSettings) (prompt : List Char) (o : TransformOptions) :
    TransformedPrompt :=
  { systemPrompt := o.systemPrompt ++ ("\nProvide brief, direct responses. Focus on essential information only.").toList
    userPrompt := if ("/no_think".toList).isSuffixOf (jsTrim prompt) then prompt
                  else prompt ++ (" /no_think").toList
    temperatureP := some (min 1 (s.temperature + 1/10))
    maxTokensP := some (min s.maxTokens 1024)
    enableThinkingP := some false
    presencePenaltyP := none
    frequencyPenaltyP := none }

/-- `QwenAdapter.transformLoop`. -/
def qwenTransformLoop (s : ProviderSettings) (prompt : List Char) (o : TransformOptions) :
    TransformedPrompt :=
  let iterations := jsOrParam (lookupMap o.parameters "iterations".toList) (ParamValue.num 3)
  { systemPrompt := o.systemPrompt ++ ("\nPlease use an iterative approach with ").toList ++ paramValueText iterations ++ (" refinement cycles:\n1. Initial response\n2. Critical review\n3. Improvement\n4. Repeat steps 2-3 for a total of ").toList ++ paramValueText iterations ++ (" iterations\n5. Present your final response with all iterations clearly labeled").toList
    userPrompt := prompt
    temperatureP := some s.temperature
    maxTokensP := none
    enableThinkingP := some true
    presencePenaltyP := none
    frequencyPenaltyP := none }

/-- `QwenAdapter.transformReflect`. -/
def qwenTransformReflect (s : ProviderSettings) (prompt : List Char) (o : TransformOptions) :
    TransformedPrompt :=
  { systemPrompt := o.systemPrompt ++ ("\nFor this response, please:\n1. Answer the query directly\n2. Then reflect on your answer by analyzing:\n   - Assumptions made\n   - Alternative perspectives\n   - Limitations in your approach\n   - Potential improvements").toList
    userPrompt := prompt ++ (" /think").toList
    temperatureP := some (max (1/10) (s.temperature - 1/10))
    maxTokensP := none
    enableThinkingP := some true
    presencePenaltyP := none
    frequencyPenaltyP := none }

/-- `QwenAdapter.transformCollapse`. -/
def qwenTransformCollapse (s : ProviderSettings) (prompt : List Char) (o : TransformOptions) :
    TransformedPrompt :=
  { systemPrompt := o.systemPrompt
    userPrompt := prompt ++ (" /no_think").toList
    temperatureP := some s.temperature
    maxTokensP := some s.maxTokens
    enableThinkingP := some false
    presencePenaltyP := none
    frequencyPenaltyP := none }

/-- `QwenAdapter.transformFork`. -/
def qwenTransformFork (s : ProviderSettings) (prompt : List Char) (o : TransformOptions) :
    TransformedPrompt :=
  let count := jsOrParam (lookupMap o.parameters "count".toList) (ParamValue.num 2)
  { systemPrompt := o.systemPrompt ++ ("\nPlease provide ").toList ++ paramValueText count ++ (" distinct alternative responses to this prompt, representing different approaches or perspectives. Label each alternative clearly.").toList
    userPrompt := prompt
    temperatureP := some (min 1 (s.temperature + 2/10))
    maxTokensP := some s.maxTokens
    enableThinkingP := some true
    presencePenaltyP := none
    frequencyPenaltyP := none }

/-- A constructed provider adapter together with its settings. -/
inductive Adapter where
  | claude (s : ProviderSettings)
  | openai (s : ProviderSettings)
  | qwen (s : ProviderSettings)
deriving DecidableEq, Repr

/-- Dispatch of the six transform methods for each adapter (the
`transform: this.transformX.bind(this)` bindings made in
`registerCoreCommands`, resolved against the concrete adapter class). -/
def applyTransformFor (a : Adapter) (tag : TransformTag) (prompt : List Char)
    (o : TransformOptions) : TransformedPrompt :=
  match a with
  | Adapter.claude s =>
    match tag with
    | TransformTag.think => claudeTransformThink s prompt o
    | TransformTag.fast => claudeTransformFast s prompt o
    | TransformTag.loop => claudeTransformLoop s prompt o
    | TransformTag.reflect => claudeTransformReflect s prompt o
    | TransformTag.collapse => claudeTransformCollapse s prompt o
    | TransformTag.fork => claudeTransformFork s prompt o
  | Adapter.openai s =>
    match tag with
    | TransformTag.think => openaiTransformThink s prompt o
    | TransformTag.fast => openaiTransformFast s prompt o
    | TransformTag.loop => openaiTransformLoop s prompt o
    | TransformTag.reflect => openaiTransformReflect s prompt o
    | TransformTag.collapse => openaiTransformCollapse s prompt o
    | TransformTag.fork => openaiTransformFork s prompt o
  | Adapter.qwen s =>
    match tag with
    | TransformTag.think => qwenTransformThink s prompt o
    | TransformTag.fast => qwenTransformFast s prompt o
    | TransformTag.loop => qwenTransformLoop s prompt o
    | TransformTag.reflect => qwenTransformReflect s prompt o
    | TransformTag.collapse => qwenTransformCollapse s prompt o
    | TransformTag.fork => qwenTransformFork s prompt o

/-- The outcome of the single outbound HTTP call made by `executePrompt`,
abstracted as an oracle: `success` carries the plain-text completion
extracted from a well-formed 2xx response; `failure` carries the underlying
error message of a network error, non-2xx status, or malformed response body
(all of which land in the `catch` block of `executePrompt`). -/
inductive HttpOutcome where
  | success (text : List Char)
  | failure (message : List Char)
deriving DecidableEq, Repr

/-- `ClaudeAdapter.executePrompt`: returns the extracted completion text, or
wraps any failure in the provider-tagged error of its `catch` block. -/
def claudeExecutePrompt (s : ProviderSettings) (t : TransformedPrompt)
    (outcome : HttpOutcome) : Except (List Char) (List Char) :=
  match outcome with
  | HttpOutcome.success txt => Except.ok txt
  | HttpOutcome.failure msg =>
    Except.error (("Failed to execute Claude prompt: ").toList ++ msg)

/-- `OpenAIAdapter.executePrompt`. -/
def openaiExecutePrompt (s : ProviderSettings) (t : TransformedPrompt)
    (outcome : HttpOutcome) : Except (List Char) (List Char) :=
  match outcome with
  | HttpOutcome.success txt => Except.ok txt
  | HttpOutcome.failure msg =>
    Except.error (("Failed to execute OpenAI prompt: ").toList ++ msg)

/-- `QwenAdapter.executePrompt` (a successful outcome's text already includes
any `<thinking>` block the adapter prepends). -/
def qwenExecutePrompt (s : ProviderSettings) (t : TransformedPrompt)
    (outcome : HttpOutcome) : Except (List Char) (List Char) :=
  match outcome with
  | HttpOutcome.success txt => Except.ok txt
  | HttpOutcome.failure msg =>
    Except.error (("Failed to execute Qwen prompt: ").toList ++ msg)

/-- `executePrompt` dispatched on the constructed adapter. -/
def executePromptFor (a : Adapter) (t : TransformedPrompt) (outcome : HttpOutcome) :
    Except (List Char) (List Char) :=
  match a with
  | Adapter.claude s => claudeExecutePrompt s t outcome
  | Adapter.openai s => openaiExecutePrompt s t outcome
  | Adapter.qwen s => qwenExecutePrompt s t outcome

/-- The provider-tagged error text prepended by each adapter's `catch` block. -/
def executeErrorTag (a : Adapter) : List Char :=
  match a with
  | Adapter.claude _ => ("Failed to execute Claude prompt: ").toList
  | Adapter.openai _ => ("Failed to execute OpenAI prompt: ").toList
  | Adapter.qwen _ => ("Failed to execute Qwen prompt: ").toList

/-- The provider name sent in telemetry events
(`constructor.name.replace('Adapter','').toLowerCase()`). -/
def adapterTelemetryProvider (a : Adapter) : List Char :=
  match a with
  | Adapter.claude _ => "claude".toList
  | Adapter.openai _ => "openai".toList
  | Adapter.qwen _ => "qwen".toList

/-- The untransformed request built by `ModelAdapter.generate` when no
command was recognized: `{ systemPrompt, userPrompt: prompt }`. -/
def untransformed (systemPrompt prompt : List Char) : TransformedPrompt :=
  { systemPrompt := systemPrompt
    userPrompt := prompt
    temperatureP := none
    maxTokensP := none
    enableThinkingP := none
    presencePenaltyP := none
    frequencyPenaltyP := none }

/-- `ModelAdapter.generate`: parse the command from the prompt, transform the
clean prompt through the resolved command (or pass the prompt through
untouched), and execute the transformed prompt.  The inner `none` branch of
the registry lookup is unreachable: `parseCommand` only reports names that
are present in the registry. -/
def adapterGenerate (a : Adapter) (st : AdapterState) (prompt systemPrompt : List Char)
    (outcome : HttpOutcome) : Except (List Char) (List Char) :=
  let inv := parseCommand st prompt
  let transformed :=
    match inv.command with
    | some c =>
      match lookupMap st.commands c with
      | some cmd =>
        applyTransformFor a cmd.transform inv.cleanPrompt
          { systemPrompt := systemPrompt, parameters := inv.parameters }
      | none => untransformed systemPrompt prompt
    | none => untransformed systemPrompt prompt
  executePromptFor a transformed outcome

/-- The provider identifiers of the `Provider` union type in `index.ts`. -/
inductive Provider where
  | anthropic | openai | qwen | gemini | vllm | ollama | lmstudio
deriving DecidableEq, Repr

/-- The provider identifier as the string interpolated into the
"Unsupported provider" error. -/
def providerName : Provider → List Char
  | Provider.anthropic => "anthropic".toList
  | Provider.openai => "openai".toList
  | Provider.qwen => "qwen".toList
  | Provider.gemini => "gemini".toList
  | Provider.vllm => "vllm".toList
  | Provider.ollama => "ollama".toList
  | Provider.lmstudio => "lmstudio".toList

/-- The constructor options of `UniversalLLM` (the provider identifier is
passed alongside; the API key does not influence any modelled behavior). -/
structure LLMOptions where
  baseURL : Option (List Char)
  model : Option (List Char)
  maxTokens : Option ℚ
  temperature : Option ℚ
  telemetryEnabled : Option Bool
deriving DecidableEq, Repr

/-- The `ClaudeAdapter` constructor's settings. -/
def mkClaudeSettings (opts : LLMOptions) : ProviderSettings :=
  { baseURL := jsOrStr opts.baseURL ("https://api.anthropic.com").toList
    model := jsOrStr opts.model ("claude-3-opus-20240229").toList
    maxTokens := jsOrQ opts.maxTokens 4096
    temperature := jsOrQ opts.temperature (7/10) }

/-- The `OpenAIAdapter` constructor's settings. -/
def mkOpenAISettings (opts : LLMOptions) : ProviderSettings :=
  { baseURL := jsOrStr opts.baseURL ("https://api.openai.com").toList
    model := jsOrStr opts.model ("gpt-4").toList
    maxTokens := jsOrQ opts.maxTokens 4096
    temperature := jsOrQ opts.temperature (7/10) }

/-- The `QwenAdapter` constructor's settings. -/
def mkQwenSettings (opts : LLMOptions) : ProviderSettings :=
  { baseURL := jsOrStr opts.baseURL ("https://api.qwen.ai").toList
    model := jsOrStr opts.model ("qwen3-30b-a3b").toList
    maxTokens := jsOrQ opts.maxTokens 4096
    temperature := jsOrQ opts.temperature (7/10) }

/-- `UniversalLLM.createAdapter`: select and instantiate exactly one adapter
by provider identifier; any identifier without a `case` throws the
"Unsupported provider" error. -/
def createAdapter (p : Provider) (opts : LLMOptions) : Except (List Char) Adapter :=
  match p with
  | Provider.anthropic => Except.ok (Adapter.claude (mkClaudeSettings opts))
  | Provider.openai => Except.ok (Adapter.openai (mkOpenAISettings opts))
  | Provider.qwen => Except.ok (Adapter.qwen (mkQwenSettings opts))
  | _ => Except.error (("Unsupported provider: ").toList ++ providerName p)

/-- An anonymous usage event as assembled by `sendTelemetry`: command name,
provider name and prompt length only (the timestamp and random ids carry no
modelled information). -/
structure TelemetryEvent where
  command : List Char
  provider : List Char
  promptLength : Nat
deriving DecidableEq, Repr

/-- The state of a `UniversalLLM` facade instance: the bound adapter and its
registry, the per-command usage counters, and the telemetry switch together
with the list of events successfully handed to the telemetry endpoint. -/
structure UniversalLLM where
  adapter : Adapter
  reg : AdapterState
  sessionCommands : List (List Char × Nat)
  telemetryEnabled : Bool
  telemetryEvents : List TelemetryEvent
deriving DecidableEq, Repr

/-- The `UniversalLLM` constructor: instantiate the adapter (whose base
constructor registers the six core commands) and initialize telemetry, which
is on unless `telemetryEnabled` is literally `false`. -/
def mkUniversalLLM (p : Provider) (opts : LLMOptions) : Except (List Char) UniversalLLM :=
  match createAdapter p opts with
  | Except.ok a =>
    Except.ok
      { adapter := a
        reg := initAdapterState
        sessionCommands := []
        telemetryEnabled := if opts.telemetryEnabled = some false then false else true
        telemetryEvents := [] }
  | Except.error e => Except.error e

/-- `UniversalLLM.trackCommandUsage`. -/
def trackCommandUsage (f : UniversalLLM) (command : List Char) : UniversalLLM :=
  { f with sessionCommands :=
      mapSet command ((lookupMap f.sessionCommands command).getD 0 + 1) f.sessionCommands }

/-- `UniversalLLM.sendTelemetry`, modelled as recording the event; its HTTP
failure is swallowed by the source and does not affect any other state. -/
def sendTelemetryEvent (f : UniversalLLM) (command : List Char) (prompt : List Char) :
    UniversalLLM :=
  { f with telemetryEvents := f.telemetryEvents ++
      [{ command := command
         provider := adapterTelemetryProvider f.adapter
         promptLength := prompt.length }] }

/-- `UniversalLLM.getCommandUsageStats`: a snapshot of the usage counters. -/
def getCommandUsageStats (f : UniversalLLM) : List (List Char × Nat) :=
  f.sessionCommands

/-- `UniversalLLM.generate`: extract a leading command token for usage
counting, increment its counter, run the adapter pipeline, and on success
emit a telemetry event when telemetry is enabled and a token was present.
An adapter error propagates after the counter update and skips telemetry. -/
def facadeGenerate (f : UniversalLLM) (prompt systemPrompt : List Char)
    (outcome : HttpOutcome) : Except (List Char) (List Char) × UniversalLLM :=
  let command := matchUsageToken prompt
  let f1 := match command with
    | some c => trackCommandUsage f c
    | none => f
  match adapterGenerate f1.adapter f1.reg prompt systemPrompt outcome with
  | Except.ok r =>
    match command with
    | some c =>
      if f1.telemetryEnabled then (Except.ok r, sendTelemetryEvent f1 c prompt)
      else (Except.ok r, f1)
    | none => (Except.ok r, f1)
  | Except.error e => (Except.error e, f1)

/-- `Except` success test (construction "does not raise"). -/
def exceptIsOk : Except ε α → Bool
  | Except.ok _ => true
  | Except.error _ => false

theorem lookupMapSet (k : List Char) (v : α) (m : List (List Char × α)) (key : List Char) :
    lookupMap (mapSet k v m) key = if k = key then some v else lookupMap m key := by
  induction m with
  | nil =>
    by_cases h : k = key <;> simp [mapSet, lookupMap, h]
  | cons kv rest ih =>
    obtain ⟨k1, v1⟩ := kv
    by_cases h1 : k1 = k
    · subst h1
      by_cases h2 : k1 = key <;> simp [mapSet, lookupMap, h2]
    · by_cases h2 : k1 = key
      · subst h2
        have hk : (k = k1) = False := by
          refine eq_false ?_
          exact fun hh => h1 hh.symm
        simp [mapSet, lookupMap, h1, hk]
      · simp [mapSet, lookupMap, h1, h2, ih]

theorem lookupFoldSet (ms : List (List Char × α)) (init : List (List Char × α))
    (key : List Char) :
    lookupMap (ms.foldl (fun m kv => mapSet kv.1 kv.2 m) init) key
      = orO (lastLookup ms key) (lookupMap init key) := by
  induction ms generalizing init with
  | nil => simp [lastLookup, orO]
  | cons kv rest ih =>
    obtain ⟨k1, v1⟩ := kv
    simp only [List.foldl_cons]
    rw [ih]
    simp only [lookupMapSet, lastLookup]
    cases h : lastLookup rest key with
    | some r => simp [orO]
    | none => by_cases h2 : k1 = key <;> simp [orO, h2]

theorem lookupMapMem (m : List (List Char × α)) (key : List Char) (v : α)
    (h : lookupMap m key = some v) : (key, v) ∈ m := by
  induction m with
  | nil => simp [lookupMap] at h
  | cons kv rest ih =>
    obtain ⟨k1, v1⟩ := kv
    by_cases h1 : k1 = key
    · subst h1
      simp [lookupMap] at h
      subst h
      exact List.mem_cons_self _ _
    · simp [lookupMap, h1] at h
      exact List.mem_cons_of_mem _ (ih h)

theorem isPrefixOfSelf (l : List Char) : l.isPrefixOf l = true := by
  induction l with
  | nil => rfl
  | cons c rest ih => simp [List.isPrefixOf, ih]

theorem takeWhileAll (p : Char → Bool) (l : List Char) (h : ∀ c ∈ l, p c = true) :
    l.takeWhile p = l := by
  induction l with
  | nil => rfl
  | cons c rest ih =>
    have hc := h c (List.mem_cons_self c rest)
    simp [List.takeWhile_cons, hc, ih (fun x hx => h x (List.mem_cons_of_mem c hx))]

theorem takeWhileAppendCons (p : Char → Bool) (w : List Char) (x : Char) (t : List Char)
    (hw : ∀ c ∈ w, p c = true) (hx : p x = false) :
    (w ++ x :: t).takeWhile p = w := by
  induction w with
  | nil => simp [List.takeWhile_cons, hx]
  | cons a as ih =>
    have ha := hw a (List.mem_cons_self a as)
    simp [List.takeWhile_cons, ha, ih (fun c hc => hw c (List.mem_cons_of_mem a hc))]

theorem dropWhileAppendCons (p : Char → Bool) (w : List Char) (x : Char) (t : List Char)
    (hw : ∀ c ∈ w, p c = true) (hx : p x = false) :
    (w ++ x :: t).dropWhile p = x :: t := by
  induction w with
  | nil => simp [List.dropWhile_cons, hx]
  | cons a as ih =>
    have ha := hw a (List.mem_cons_self a as)
    simp [List.dropWhile_cons, ha, ih (fun c hc => hw c (List.mem_cons_of_mem a hc))]

theorem spaceNotWord (c : Char) (h : isJsSpace c = true) : isWordChar c = false := by
  simp only [isJsSpace, Bool.or_eq_true, beq_iff_eq] at h
  casesm* _ ∨ _ <;> subst_vars <;> decide

theorem executeFailureEq (a : Adapter) (t : TransformedPrompt) (msg : List Char) :
    executePromptFor a t (HttpOutcome.failure msg)
      = Except.error (executeErrorTag a ++ msg) := by
  cases a <;> rfl

theorem executeSuccessEq (a : Adapter) (t : TransformedPrompt) (txt : List Char) :
    executePromptFor a t (HttpOutcome.success txt) = Except.ok txt := by
  cases a <;> rfl

theorem adapterGenerateFailure (a : Adapter) (st : AdapterState) (prompt sys msg : List Char) :
    adapterGenerate a st prompt sys (HttpOutcome.failure msg)
      = Except.error (executeErrorTag a ++ msg) := by
  unfold adapterGenerate
  exact executeFailureEq a _ msg

theorem adapterGenerateSuccess (a : Adapter) (st : AdapterState) (prompt sys txt : List Char) :
    adapterGenerate a st prompt sys (HttpOutcome.success txt) = Except.ok txt := by
  unfold adapterGenerate
  exact executeSuccessEq a _ txt

/-- Concrete constructor options used by the witnesses: every option left to
its default. -/
def sampleOptions : LLMOptions :=
  { baseURL := none, model := none, maxTokens := none, temperature := none
    telemetryEnabled := none }

/-- C1 counterexample: parsing `"/think hello world"` does resolve `think`
with an empty parameter mapping, but the clean prompt it returns is the empty
string, not `"hello world"` as the claim states. -/
theorem c1_counterexample :
    parseCommand initAdapterState (("/think hello world").toList)
      = { command := some (("think").toList), cleanPrompt := [], parameters := [] }
    ∧ ¬ (parseCommand initAdapterState (("/think hello world").toList)).cleanPrompt
        = ("hello world").toList :=
  ⟨by decide, by decide⟩

/-- C1 (corrected): for every single-line prompt made of `/`, a registered
command token `w`, a whitespace character and free text, `parseCommand`
resolves the command, but the clean prompt is the original text with the
ENTIRE matched region removed — the command token together with the
whitespace and the whole remainder of the line — and is therefore empty, not
the free text.  In particular `"/think hello world"` yields command `think`,
clean prompt `""`, and an empty parameter mapping. -/
theorem c1_amended (st : AdapterState) (w : List Char) (s : Char) (rest : List Char)
    (hw1 : w ≠ [])
    (hw2 : ∀ c ∈ w, isWordChar c = true)
    (hs : isJsSpace s = true)
    (hnl : ∀ c ∈ rest, c ≠ '\n')
    (hres : (lookupMap st.commands (jsOrStr (lookupMap st.aliasMap w) w)).isSome = true) :
    ((parseCommand st ('/' :: (w ++ s :: rest))).command
        = some (jsOrStr (lookupMap st.aliasMap w) w)
      ∧ (parseCommand st ('/' :: (w ++ s :: rest))).cleanPrompt = [])
    ∧ parseCommand initAdapterState (("/think hello world").toList)
        = { command := some (("think").toList), cleanPrompt := [], parameters := [] } := by
  have hsw : isWordChar s = false := spaceNotWord s hs
  have htw : (w ++ s :: rest).takeWhile isWordChar = w :=
    takeWhileAppendCons isWordChar w s rest hw2 hsw
  have hdw : (w ++ s :: rest).dropWhile isWordChar = s :: rest :=
    dropWhileAppendCons isWordChar w s rest hw2 hsw
  have hsp : (s :: rest).takeWhile isJsSpace = s :: rest.takeWhile isJsSpace := by
    simp [List.takeWhile_cons, hs]
  have hdsp : (s :: rest).dropWhile isJsSpace = rest.dropWhile isJsSpace := by
    simp [List.dropWhile_cons, hs]
  have hrl : (rest.dropWhile isJsSpace).takeWhile (fun c => c != '\n')
      = rest.dropWhile isJsSpace := by
    apply takeWhileAll
    intro c hc
    have hcr : c ∈ rest := (List.dropWhile_sublist isJsSpace).mem hc
    exact bne_iff_ne.mpr (hnl c hcr)
  have hmatch : matchCommandRegex ('/' :: (w ++ s :: rest))
      = some (w, some (rest.dropWhile isJsSpace), '/' :: (w ++ s :: rest)) := by
    simp only [matchCommandRegex, htw, hdw, hsp, hdsp, hrl]
    rw [if_neg hw1]
    simp [List.append_assoc, List.cons_append, List.takeWhile_append_dropWhile]
  have herase : replaceFirstErase ('/' :: (w ++ s :: rest)) ('/' :: (w ++ s :: rest)) = [] := by
    simp [replaceFirstErase, isPrefixOfSelf, List.drop_length]
  have hpc : parseCommand st ('/' :: (w ++ s :: rest))
      = { command := some (jsOrStr (lookupMap st.aliasMap w) w)
          cleanPrompt := []
          parameters := parseParameters st (jsOrStr (lookupMap st.aliasMap w) w)
                          (rest.dropWhile isJsSpace) } := by
    simp only [parseCommand, hmatch, Option.getD_some]
    rw [if_pos hres, herase]
    rfl
  exact ⟨⟨by rw [hpc], by rw [hpc]⟩, by decide⟩

/-- C1 witness: the amended statement applied to the prompt
`"/think hello world"` split as token, space and free text. -/
theorem c1_amended_witness :
    (("think").toList ≠ ([] : List Char))
    ∧ isJsSpace ' ' = true
    ∧ (lookupMap initAdapterState.commands
        (jsOrStr (lookupMap initAdapterState.aliasMap (("think").toList))
          (("think").toList))).isSome = true
    ∧ (parseCommand initAdapterState
        ('/' :: ((("think").toList) ++ ' ' :: (("hello world").toList)))).cleanPrompt = [] :=
  ⟨by decide, by decide, by decide,
    ((c1_amended initAdapterState (("think").toList) ' ' (("hello world").toList)
      (by decide) (by decide) (by decide) (by decide) (by decide)).1).2⟩

/-- C2 (confirmed): when the prompt has no leading marker-prefixed token, or
its leading token does not resolve in the registry, `parseCommand` reports no
command and returns the input unchanged with an empty parameter mapping, and
`generate` executes the unchanged prompt without any transformation. -/
theorem c2_noCommand (st : AdapterState) (prompt : List Char) (a : Adapter)
    (sys : List Char) (outcome : HttpOutcome)
    (h : matchCommandRegex prompt = none
      ∨ ∃ wordRo, matchCommandRegex prompt = some wordRo
          ∧ lookupMap st.commands (jsOrStr (lookupMap st.aliasMap wordRo.1) wordRo.1) = none) :
    parseCommand st prompt = { command := none, cleanPrompt := prompt, parameters := [] }
    ∧ adapterGenerate a st prompt sys outcome
        = executePromptFor a (untransformed sys prompt) outcome := by
  have hpc : parseCommand st prompt
      = { command := none, cleanPrompt := prompt, parameters := [] } := by
    rcases h with h | ⟨⟨word, restOpt, fullMatch⟩, hm, hl⟩
    · simp [parseCommand, h]
    · simp [parseCommand, hm, hl]
  refine ⟨hpc, ?_⟩
  simp [adapterGenerate, hpc]

/-- C2 witness: `"/unknowncmd hi"` matches the token regex but does not
resolve, so it is passed through untouched. -/
theorem c2_witness :
    matchCommandRegex (("/unknowncmd hi").toList)
        = some (("unknowncmd").toList, some (("hi").toList), ("/unknowncmd hi").toList)
    ∧ lookupMap initAdapterState.commands (("unknowncmd").toList) = none
    ∧ parseCommand initAdapterState (("/unknowncmd hi").toList)
        = { command := none, cleanPrompt := ("/unknowncmd hi").toList, parameters := [] }
    ∧ adapterGenerate (Adapter.claude (mkClaudeSettings sampleOptions)) initAdapterState
        (("/unknowncmd hi").toList) [] (HttpOutcome.success (("ok").toList))
        = executePromptFor (Adapter.claude (mkClaudeSettings sampleOptions))
            (untransformed [] (("/unknowncmd hi").toList))
            (HttpOutcome.success (("ok").toList)) :=
  ⟨by decide, by decide,
    (c2_noCommand initAdapterState (("/unknowncmd hi").toList)
      (Adapter.claude (mkClaudeSettings sampleOptions)) []
      (HttpOutcome.success (("ok").toList))
      (Or.inr ⟨((("unknowncmd").toList), some (("hi").toList), ("/unknowncmd hi").toList),
        by decide, by decide⟩)).1,
    (c2_noCommand initAdapterState (("/unknowncmd hi").toList)
      (Adapter.claude (mkClaudeSettings sampleOptions)) []
      (HttpOutcome.success (("ok").toList))
      (Or.inr ⟨((("unknowncmd").toList), some (("hi").toList), ("/unknowncmd hi").toList),
        by decide, by decide⟩)).2⟩

/-- The facade produced by `mkUniversalLLM Provider.anthropic sampleOptions`. -/
def sampleFacade : UniversalLLM :=
  { adapter := Adapter.claude (mkClaudeSettings sampleOptions)
    reg := initAdapterState
    sessionCommands := []
    telemetryEnabled := true
    telemetryEvents := [] }

/-- C3 (confirmed): after constructing a facade for any options and any
provider that succeeds, the adapter's registry holds exactly the six built-in
commands in registration order, with `loop` declaring `iterations`
(default 3) and `fork` declaring `count` (default 2), no aliases, and every
registered key resolving to a command whose name equals that key. -/
theorem c3_builtins (opts : LLMOptions) (p : Provider) (f : UniversalLLM)
    (k : List Char) (c : Command)
    (hmk : mkUniversalLLM p opts = Except.ok f) :
    f.reg.commands =
      [(("think").toList, thinkCmd), (("fast").toList, fastCmd), (("loop").toList, loopCmd),
       (("reflect").toList, reflectCmd), (("collapse").toList, collapseCmd),
       (("fork").toList, forkCmd)]
    ∧ loopCmd.params = [ParamDecl.mk (("iterations").toList)
        (("Number of refinement iterations").toList) false (some (ParamValue.num 3))]
    ∧ forkCmd.params = [ParamDecl.mk (("count").toList)
        (("Number of alternatives to generate").toList) false (some (ParamValue.num 2))]
    ∧ f.reg.aliasMap = []
    ∧ (lookupMap f.reg.commands k = some c → c.name = k) := by
  have hreg : f.reg = initAdapterState := by
    cases p <;> simp only [mkUniversalLLM, createAdapter, Except.ok.injEq] at hmk
    case anthropic => rw [← hmk]
    case openai => rw [← hmk]
    case qwen => rw [← hmk]
    all_goals exact absurd hmk (by simp)
  refine ⟨by rw [hreg]; rfl, rfl, rfl, by rw [hreg]; rfl, ?_⟩
  intro h
  have hm := lookupMapMem _ _ _ h
  rw [hreg] at hm
  have hcl : initAdapterState.commands
      = [(("think").toList, thinkCmd), (("fast").toList, fastCmd), (("loop").toList, loopCmd),
         (("reflect").toList, reflectCmd), (("collapse").toList, collapseCmd),
         (("fork").toList, forkCmd)] := rfl
  rw [hcl] at hm
  simp only [List.mem_cons, List.not_mem_nil, or_false] at hm
  rcases hm with hm|hm|hm|hm|hm|hm <;>
    (rw [Prod.mk.injEq] at hm; obtain ⟨h1, h2⟩ := hm; subst h1; subst h2; rfl)

/-- C3 witness: constructing the anthropic facade from the default options. -/
theorem c3_witness :
    mkUniversalLLM Provider.anthropic sampleOptions = Except.ok sampleFacade
    ∧ sampleFacade.reg.aliasMap = []
    ∧ forkCmd.name = ("fork").toList :=
  ⟨rfl,
   (c3_builtins sampleOptions Provider.anthropic sampleFacade (("fork").toList) forkCmd
     rfl).2.2.2.1,
   (c3_builtins sampleOptions Provider.anthropic sampleFacade (("fork").toList) forkCmd
     rfl).2.2.2.2 (by decide)⟩

/-- C4 (confirmed): for a command with at least one declared parameter, the
mapping `parseParameters` returns is fully characterized by: the value of the
LAST `--name[=value]` token scanned for that key when one was supplied
(`--name=value` contributes its string value, bare `--name` contributes
`true`, later duplicates overwrite earlier ones), and otherwise the declared
default when the parameter has one, and otherwise absence. -/
theorem c4_parseParameters (st : AdapterState) (cmdName paramString k : List Char)
    (cmd : Command) (hc : lookupMap st.commands cmdName = some cmd)
    (hne : cmd.params ≠ []) :
    lookupMap (parseParameters st cmdName paramString) k
      = orO (lastLookup (scanParams paramString) k) (lookupMap (paramDefaults cmd) k) := by
  unfold parseParameters
  rw [hc]
  have hempty : cmd.params.isEmpty = false := by
    cases hps : cmd.params with
    | nil => exact absurd hps hne
    | cons a l => rfl
  simp only [hempty, Bool.false_eq_true, if_false]
  exact lookupFoldSet _ _ _

/-- C4 witness: `loop` with `"--a=1 --b --a=2"`; the duplicate key `a` ends
up with its later value `"2"`. -/
theorem c4_witness :
    lookupMap initAdapterState.commands (("loop").toList) = some loopCmd
    ∧ loopCmd.params ≠ []
    ∧ lookupMap (parseParameters initAdapterState (("loop").toList)
          (("--a=1 --b --a=2").toList)) (("a").toList)
        = orO (lastLookup (scanParams (("--a=1 --b --a=2").toList)) (("a").toList))
            (lookupMap (paramDefaults loopCmd) (("a").toList))
    ∧ lookupMap (parseParameters initAdapterState (("loop").toList)
          (("--a=1 --b --a=2").toList)) (("a").toList)
        = some (ParamValue.str (("2").toList))
    ∧ lookupMap (parseParameters initAdapterState (("loop").toList)
          (("--a=1 --b --a=2").toList)) (("iterations").toList)
        = some (ParamValue.num 3) :=
  ⟨by decide, by decide,
   c4_parseParameters initAdapterState (("loop").toList) (("--a=1 --b --a=2").toList)
     (("a").toList) loopCmd (by decide) (by decide),
   by decide, by decide⟩

/-- C5 counterexample: `think` declares no parameters, so `parseParameters`
returns early with an empty mapping and a supplied `--foo=bar` token is NOT
captured, refuting the claim for commands that declare no parameters. -/
theorem c5_counterexample :
    lastLookup (scanParams (("--foo=bar").toList)) (("foo").toList)
        = some (ParamValue.str (("bar").toList))
    ∧ thinkCmd.params = []
    ∧ parseParameters initAdapterState (("think").toList) (("--foo=bar").toList) = []
    ∧ lookupMap (parseParameters initAdapterState (("think").toList)
        (("--foo=bar").toList)) (("foo").toList) = none :=
  ⟨by decide, by decide, by decide, by decide⟩

/-- C5 (corrected): for a resolved command with AT LEAST ONE declared
parameter, a supplied `--name[=value]` token whose name is not among the
declared parameters is still captured in the resulting mapping; but for a
command that declares no parameters at all (such as `think` or `fast`) the
parser returns an empty mapping and captures nothing. -/
theorem c5_amended (st : AdapterState) (cmdName cmdName2 paramString k : List Char)
    (v : ParamValue) (cmd cmd2 : Command)
    (hc : lookupMap st.commands cmdName = some cmd)
    (hne : cmd.params ≠ [])
    (hundecl : ∀ q ∈ cmd.params, q.name ≠ k)
    (hsup : lastLookup (scanParams paramString) k = some v)
    (hc2 : lookupMap st.commands cmdName2 = some cmd2)
    (hz : cmd2.params = []) :
    lookupMap (parseParameters st cmdName paramString) k = some v
    ∧ parseParameters st cmdName2 paramString = [] := by
  constructor
  · unfold parseParameters
    rw [hc]
    have hempty : cmd.params.isEmpty = false := by
      cases hps : cmd.params with
      | nil => exact absurd hps hne
      | cons a l => rfl
    simp only [hempty, Bool.false_eq_true, if_false]
    rw [lookupFoldSet, hsup]
    rfl
  · unfold parseParameters
    rw [hc2]
    simp [hz]

/-- C5 witness: an undeclared `--custom=7` is captured for `loop` (which
declares `iterations`), but nothing is captured for `think`. -/
theorem c5_witness :
    lastLookup (scanParams (("--custom=7").toList)) (("custom").toList)
        = some (ParamValue.str (("7").toList))
    ∧ lookupMap (parseParameters initAdapterState (("loop").toList)
        (("--custom=7").toList)) (("custom").toList)
        = some (ParamValue.str (("7").toList))
    ∧ parseParameters initAdapterState (("think").toList) (("--custom=7").toList) = [] :=
  ⟨by decide,
   (c5_amended initAdapterState (("loop").toList) (("think").toList)
     (("--custom=7").toList) (("custom").toList) (ParamValue.str (("7").toList))
     loopCmd thinkCmd (by decide) (by decide) (by decide) (by decide) (by decide)
     (by decide)).1,
   (c5_amended initAdapterState (("loop").toList) (("think").toList)
     (("--custom=7").toList) (("custom").toList) (ParamValue.str (("7").toList))
     loopCmd thinkCmd (by decide) (by decide) (by decide) (by decide) (by decide)
     (by decide)).2⟩

/-- The optional model parameter `o` is present and at most `b`. -/
def optLeQ (o : Option ℚ) (b : ℚ) : Prop :=
  match o with
  | some x => x ≤ b
  | none => False

/-- The optional model parameter `o` is present and at least `b`. -/
def optGeQ (o : Option ℚ) (b : ℚ) : Prop :=
  match o with
  | some x => b ≤ x
  | none => False

/-- The settings of the Claude adapter constructed from the default options
(temperature `0.7`, max-token budget `4096`). -/
def sampleSettings : ProviderSettings :=
  mkClaudeSettings sampleOptions

/-- Transform options used by the witnesses: empty system prompt, empty
parameter mapping. -/
def sampleTransformOptions : TransformOptions :=
  { systemPrompt := [], parameters := [] }

/-- C6 (confirmed): for every adapter (Claude, OpenAI, Qwen) and every
configured settings whose default temperature is within the provider ceiling
of `1`, `transformFast` produces a request carrying a max-token cap at most
the configured default cap and a temperature at least the configured default
temperature. -/
theorem c6_transformFast (s : ProviderSettings) (prompt : List Char) (o : TransformOptions)
    (h : s.temperature ≤ 1) :
    (optLeQ (claudeTransformFast s prompt o).maxTokensP s.maxTokens
      ∧ optGeQ (claudeTransformFast s prompt o).temperatureP s.temperature)
    ∧ (optLeQ (openaiTransformFast s prompt o).maxTokensP s.maxTokens
      ∧ optGeQ (openaiTransformFast s prompt o).temperatureP s.temperature)
    ∧ (optLeQ (qwenTransformFast s prompt o).maxTokensP s.maxTokens
      ∧ optGeQ (qwenTransformFast s prompt o).temperatureP s.temperature) := by
  have hmt : min s.maxTokens (1024 : ℚ) ≤ s.maxTokens := min_le_left _ _
  have ht : s.temperature ≤ min 1 (s.temperature + 1/10) := by
    apply le_min h
    linarith
  exact ⟨⟨hmt, ht⟩, ⟨hmt, ht⟩, ⟨hmt, ht⟩⟩

/-- C6 witness: the default settings (temperature `0.7 ≤ 1`, cap `4096`). -/
theorem c6_witness :
    sampleSettings.temperature ≤ 1
    ∧ ((optLeQ (claudeTransformFast sampleSettings [] sampleTransformOptions).maxTokensP
          sampleSettings.maxTokens
        ∧ optGeQ (claudeTransformFast sampleSettings [] sampleTransformOptions).temperatureP
            sampleSettings.temperature)
      ∧ (optLeQ (openaiTransformFast sampleSettings [] sampleTransformOptions).maxTokensP
          sampleSettings.maxTokens
        ∧ optGeQ (openaiTransformFast sampleSettings [] sampleTransformOptions).temperatureP
            sampleSettings.temperature)
      ∧ (optLeQ (qwenTransformFast sampleSettings [] sampleTransformOptions).maxTokensP
          sampleSettings.maxTokens
        ∧ optGeQ (qwenTransformFast sampleSettings [] sampleTransformOptions).temperatureP
            sampleSettings.temperature)) :=
  ⟨by norm_num [sampleSettings, mkClaudeSettings, jsOrQ, sampleOptions],
   c6_transformFast sampleSettings [] sampleTransformOptions
     (by norm_num [sampleSettings, mkClaudeSettings, jsOrQ, sampleOptions])⟩

/-- C7 (confirmed): for every adapter (Claude, OpenAI, Qwen) and every
configured settings whose default temperature is within the provider floor of
`0.1`, `transformThink` produces a request carrying a temperature at most the
configured default temperature. -/
theorem c7_transformThink (s : ProviderSettings) (prompt : List Char) (o : TransformOptions)
    (h : 1/10 ≤ s.temperature) :
    optLeQ (claudeTransformThink s prompt o).temperatureP s.temperature
    ∧ optLeQ (openaiTransformThink s prompt o).temperatureP s.temperature
    ∧ optLeQ (qwenTransformThink s prompt o).temperatureP s.temperature := by
  have ht : max (1/10 : ℚ) (s.temperature - 2/10) ≤ s.temperature := by
    apply max_le h
    linarith
  exact ⟨ht, ht, ht⟩

/-- C7 witness: the default settings (temperature `0.7 ≥ 0.1`). -/
theorem c7_witness :
    (1/10 : ℚ) ≤ sampleSettings.temperature
    ∧ optLeQ (claudeTransformThink sampleSettings [] sampleTransformOptions).temperatureP
        sampleSettings.temperature
    ∧ optLeQ (openaiTransformThink sampleSettings [] sampleTransformOptions).temperatureP
        sampleSettings.temperature
    ∧ optLeQ (qwenTransformThink sampleSettings [] sampleTransformOptions).temperatureP
        sampleSettings.temperature :=
  ⟨by norm_num [sampleSettings, mkClaudeSettings, jsOrQ, sampleOptions],
   (c7_transformThink sampleSettings [] sampleTransformOptions
     (by norm_num [sampleSettings, mkClaudeSettings, jsOrQ, sampleOptions])).1,
   (c7_transformThink sampleSettings [] sampleTransformOptions
     (by norm_num [sampleSettings, mkClaudeSettings, jsOrQ, sampleOptions])).2.1,
   (c7_transformThink sampleSettings [] sampleTransformOptions
     (by norm_num [sampleSettings, mkClaudeSettings, jsOrQ, sampleOptions])).2.2⟩

/-- C8 (confirmed): constructing a facade for `anthropic`, `openai` or `qwen`
succeeds (instantiating one adapter) and does not raise, while every other
provider identifier fails construction immediately with the
"Unsupported provider" error, before any generate call is possible. -/
theorem c8_createAdapter (opts : LLMOptions) (p : Provider) :
    ((p = Provider.anthropic ∨ p = Provider.openai ∨ p = Provider.qwen)
      → exceptIsOk (mkUniversalLLM p opts) = true)
    ∧ (¬ (p = Provider.anthropic ∨ p = Provider.openai ∨ p = Provider.qwen)
      → mkUniversalLLM p opts
          = Except.error (("Unsupported provider: ").toList ++ providerName p)) := by
  constructor
  · rintro (rfl | rfl | rfl) <;> rfl
  · intro h
    cases p with
    | anthropic => exact absurd (Or.inl rfl) h
    | openai => exact absurd (Or.inr (Or.inl rfl)) h
    | qwen => exact absurd (Or.inr (Or.inr rfl)) h
    | gemini => rfl
    | vllm => rfl
    | ollama => rfl
    | lmstudio => rfl

/-- C8 witness: `anthropic` constructs, `gemini` raises at construction. -/
theorem c8_witness :
    exceptIsOk (mkUniversalLLM Provider.anthropic sampleOptions) = true
    ∧ mkUniversalLLM Provider.gemini sampleOptions
        = Except.error (("Unsupported provider: ").toList ++ providerName Provider.gemini) :=
  ⟨(c8_createAdapter sampleOptions Provider.anthropic).1 (Or.inl rfl),
   (c8_createAdapter sampleOptions Provider.gemini).2 (by decide)⟩

/-- C9 (confirmed): for a generate call whose prompt begins with a command
token, an upstream HTTP failure surfaces from `generate` as the single
provider-tagged error, and the usage counter for that token is still
incremented by one, exactly as it would be on success — the counter is
updated before the adapter pipeline runs. -/
theorem c9_failureCounts (f : UniversalLLM) (prompt sys c msg : List Char)
    (h : matchUsageToken prompt = some c) :
    (facadeGenerate f prompt sys (HttpOutcome.failure msg)).1
        = Except.error (executeErrorTag f.adapter ++ msg)
    ∧ lookupMap (facadeGenerate f prompt sys (HttpOutcome.failure msg)).2.sessionCommands c
        = some ((lookupMap f.sessionCommands c).getD 0 + 1) := by
  constructor
  · simp [facadeGenerate, h, adapterGenerateFailure, trackCommandUsage]
  · simp [facadeGenerate, h, adapterGenerateFailure, trackCommandUsage, lookupMapSet]

/-- C9 witness: a failing call with `"/think hi"` on the sample facade. -/
theorem c9_witness :
    matchUsageToken (("/think hi").toList) = some (("think").toList)
    ∧ (facadeGenerate sampleFacade (("/think hi").toList) []
        (HttpOutcome.failure (("boom").toList))).1
        = Except.error (executeErrorTag sampleFacade.adapter ++ ("boom").toList)
    ∧ lookupMap (facadeGenerate sampleFacade (("/think hi").toList) []
        (HttpOutcome.failure (("boom").toList))).2.sessionCommands (("think").toList)
        = some ((lookupMap sampleFacade.sessionCommands (("think").toList)).getD 0 + 1) :=
  ⟨by decide,
   (c9_failureCounts sampleFacade (("/think hi").toList) [] (("think").toList)
     (("boom").toList) (by decide)).1,
   (c9_failureCounts sampleFacade (("/think hi").toList) [] (("think").toList)
     (("boom").toList) (by decide)).2⟩

/-- C10 (confirmed): for a generate call whose prompt begins with a slash
followed by word characters, the facade increments its usage counter under
that token — whether or not the token names a registered command, and whether
the upstream call succeeds or fails — so `getCommandUsageStats` reports the
count; and when telemetry is enabled and the upstream call succeeds, a
telemetry event for that token is emitted. -/
theorem c10_unregisteredCounted (f : UniversalLLM) (prompt sys c txt msg : List Char)
    (h1 : matchUsageToken prompt = some c)
    (h2 : f.telemetryEnabled = true) :
    lookupMap (facadeGenerate f prompt sys (HttpOutcome.success txt)).2.sessionCommands c
        = some ((lookupMap f.sessionCommands c).getD 0 + 1)
    ∧ lookupMap (getCommandUsageStats
          (facadeGenerate f prompt sys (HttpOutcome.success txt)).2) c
        = some ((lookupMap f.sessionCommands c).getD 0 + 1)
    ∧ (facadeGenerate f prompt sys (HttpOutcome.success txt)).2.telemetryEvents
        = f.telemetryEvents
          ++ [{ command := c, provider := adapterTelemetryProvider f.adapter
              , promptLength := prompt.length }]
    ∧ lookupMap (facadeGenerate f prompt sys (HttpOutcome.failure msg)).2.sessionCommands c
        = some ((lookupMap f.sessionCommands c).getD 0 + 1) := by
  refine ⟨?_, ?_, ?_, ?_⟩
  · simp [facadeGenerate, h1, h2, adapterGenerateSuccess, trackCommandUsage,
      sendTelemetryEvent, lookupMapSet]
  · simp [facadeGenerate, h1, h2, adapterGenerateSuccess, trackCommandUsage,
      sendTelemetryEvent, getCommandUsageStats, lookupMapSet]
  · simp [facadeGenerate, h1, h2, adapterGenerateSuccess, trackCommandUsage,
      sendTelemetryEvent]
  · simp [facadeGenerate, h1, adapterGenerateFailure, trackCommandUsage, lookupMapSet]

/-- C10 witness: `"/notacommand hi"` is not registered, yet it is counted,
reported by the stats snapshot, and a telemetry event is emitted for it. -/
theorem c10_witness :
    matchUsageToken (("/notacommand hi").toList) = some (("notacommand").toList)
    ∧ sampleFacade.telemetryEnabled = true
    ∧ lookupMap initAdapterState.commands (("notacommand").toList) = none
    ∧ lookupMap (getCommandUsageStats
        (facadeGenerate sampleFacade (("/notacommand hi").toList) []
          (HttpOutcome.success (("ok").toList))).2) (("notacommand").toList)
        = some 1
    ∧ (facadeGenerate sampleFacade (("/notacommand hi").toList) []
        (HttpOutcome.success (("ok").toList))).2.telemetryEvents
        = [{ command := ("notacommand").toList, provider := ("claude").toList
           , promptLength := 15 }] :=
  ⟨by decide, rfl, by decide,
   (c10_unregisteredCounted sampleFacade (("/notacommand hi").toList) []
     (("notacommand").toList) (("ok").toList) [] (by decide) rfl).2.1,
   (c10_unregisteredCounted sampleFacade (("/notacommand hi").toList) []
     (("notacommand").toList) (("ok").toList) [] (by decide) rfl).2.2.1⟩
